import Mathlib

/-!
# useAPICall

A shallow embedding of `src/useAPICall.js`: the reducer `apiCallReducer`, the
record returned by `useAPICallHook`, and the asynchronous operation `call`,
followed by the properties of the specification that were checked against it.

JavaScript values are a small closed datatype, objects are association lists
whose absent properties read as `undefined`, and `call` is a state-passing
function over the reducer state together with a log of the observable effects.
The single suspension point of `call` (the `await`) splits it in two halves,
`callStart` and `callResume`, so that the state between them can be talked
about and two invocations can be interleaved.
-/

namespace UseAPICall

/-! ## Values and objects -/

/-- JavaScript values that can flow through the hook. `closure` stands for a
function value, identified by the name it is bound to. -/
inductive JSVal where
  | undefined
  | null
  | bool (b : Bool)
  | num (n : Int)
  | str (s : String)
  | closure (name : String)
  deriving DecidableEq, Repr

/-- An object literal: its properties in the order they are written. -/
abbrev JSObject := List (String × JSVal)

/-- Property read `o.key` (also what destructuring `const { key } = o` binds):
the value stored under `key`, and `undefined` when the object has no such
property. -/
def JSObject.get (o : JSObject) (key : String) : JSVal :=
  match o.lookup key with
  | some v => v
  | none => JSVal.undefined

/-! ## State, lines 3-13 -/

/-- The reducer state: an object with exactly the properties `loading`,
`data` and `error` (the shape of `DEFAULT_STATE`, kept by every branch of the
reducer). -/
structure CallState where
  loading : Bool
  data : JSVal
  error : JSVal
  deriving DecidableEq, Repr

/-- Property read on the state object: the three properties it has, and
`undefined` for every other name. -/
def CallState.getProp (state : CallState) (key : String) : JSVal :=
  if key = "loading" then JSVal.bool state.loading
  else if key = "data" then state.data
  else if key = "error" then state.error
  else JSVal.undefined

/-- The constant `DEFAULT_STATE`, lines 3-7. -/
def DEFAULT_STATE : CallState :=
  { loading := false, data := JSVal.null, error := JSVal.null }

/-- The constant `CALL_STATES.FETCHING`, line 10. -/
def CALL_STATES.FETCHING : String := "FETCHING"

/-- The constant `CALL_STATES.RECEIVED`, line 11. -/
def CALL_STATES.RECEIVED : String := "RECEIVED"

/-- The constant `CALL_STATES.ERROR`, line 12. -/
def CALL_STATES.ERROR : String := "ERROR"

/-! ## Reducer, lines 15-41 -/

/-- The function `apiCallReducer`, lines 15-41: `type`, `data` and `error` are
read off the action, and the `switch` on `type` compares with `===`. -/
def apiCallReducer (state : CallState) (action : JSObject) : CallState :=
  let type := action.get "type"
  let data := action.get "data"
  let error := action.get "error"
  if type = JSVal.str CALL_STATES.FETCHING then
    { state with loading := true, data := JSVal.null, error := JSVal.null }
  else if type = JSVal.str CALL_STATES.RECEIVED then
    { state with loading := false, data := data, error := JSVal.null }
  else if type = JSVal.str CALL_STATES.ERROR then
    { state with loading := false, error := error }
  else
    state

/-! ## The hook, lines 43-67 -/

/-- How an asynchronous computation settles: `callFn(...callArgs)` awaited at
line 57 either yields a value or fails (a rejected promise and a synchronous
throw are caught by the same `try`), and the promise returned by `call` is
fulfilled with its return value or rejected with an exception that escaped. -/
inductive Settlement where
  | resolved (value : JSVal)
  | rejected (reason : JSVal)
  deriving DecidableEq, Repr

/-- A side-effect callback: it returns normally (its result is discarded) or
throws. -/
abbrev Callback (α : Type) := α → Except JSVal Unit

/-- The default value `() => {}` of the three callback parameters, lines 45-47. -/
def noop {α : Type} : Callback α := fun _ => Except.ok ()

/-- The three callbacks `useAPICallHook` closes over. -/
structure Callbacks where
  fetchingCallback : Callback (List JSVal)
  responseCallback : Callback JSVal
  errorCallback : Callback JSVal

/-- The callbacks in force when none is supplied, lines 45-47. -/
def defaultCallbacks : Callbacks :=
  { fetchingCallback := noop, responseCallback := noop, errorCallback := noop }

/-- Observable effects of `call`, in the order they happen. -/
inductive Effect where
  | dispatch (action : JSObject)
  | fetchingCallback (callArgs : List JSVal)
  | callFn (callArgs : List JSVal)
  | responseCallback (response : JSVal)
  | errorCallback (e : JSVal)
  deriving DecidableEq, Repr

/-- One mounted instance of the hook: the state held by `useReducer`
(line 49) and the effects performed so far. -/
structure HookInstance where
  state : CallState
  log : List Effect
  deriving DecidableEq, Repr

/-- A freshly mounted instance: `useReducer(apiCallReducer, DEFAULT_STATE)`. -/
def HookInstance.mount : HookInstance :=
  { state := DEFAULT_STATE, log := [] }

/-- Append an effect to the log. -/
def HookInstance.record (h : HookInstance) (eff : Effect) : HookInstance :=
  { h with log := h.log ++ [eff] }

/-- The `dispatch` of `useReducer`: the reducer is applied to the current
state and the action. -/
def dispatch (action : JSObject) (h : HookInstance) : HookInstance :=
  { state := apiCallReducer h.state action, log := h.log ++ [Effect.dispatch action] }

namespace useAPICallHook

/-- The record returned at line 66 for a render with the given state.
Line 50 destructures `isLoading`, `data` and `error` from the state. -/
def view (state : CallState) : JSObject :=
  let isLoading := state.getProp "isLoading"
  let data := state.getProp "data"
  let error := state.getProp "error"
  [("isLoading", isLoading), ("data", data), ("error", error),
    ("call", JSVal.closure "call")]

/-- Lines 53-57 of `call`, up to the suspension at `await`: FETCHING is
dispatched, `fetchingCallback(...callArgs)` runs outside the `try`, and
`callFn(...callArgs)` is invoked. The second component is the exception that
escaped from `fetchingCallback`, if any. -/
def callStart (cb : Callbacks) (callArgs : List JSVal) (h : HookInstance) :
    HookInstance × Option JSVal :=
  let h1 := dispatch [("type", JSVal.str CALL_STATES.FETCHING)] h
  let h2 := h1.record (Effect.fetchingCallback callArgs)
  match cb.fetchingCallback callArgs with
  | Except.error x => (h2, some x)
  | Except.ok () => (h2.record (Effect.callFn callArgs), none)

/-- The `catch (e)` block, lines 60-63, followed by `return response` of
line 64, where `response` is the binding of line 55. The dispatched action is
the literal `{ type: CALL_STATES.ERROR, e }`. -/
def callCatch (cb : Callbacks) (response : JSVal) (e : JSVal) (h : HookInstance) :
    HookInstance × Settlement :=
  let h1 := dispatch [("type", JSVal.str CALL_STATES.ERROR), ("e", e)] h
  let h2 := h1.record (Effect.errorCallback e)
  match cb.errorCallback e with
  | Except.error y => (h2, Settlement.rejected y)
  | Except.ok () => (h2, Settlement.resolved response)

/-- Lines 55-64 of `call`, from the point where `callFn` has settled. The
`let response = null` of line 55 is the binding returned at line 64; the
`const response` of line 57 is local to the `try` block. -/
def callResume (cb : Callbacks) (outcome : Settlement) (h : HookInstance) :
    HookInstance × Settlement :=
  let response := JSVal.null
  match outcome with
  | Settlement.resolved awaited =>
    let h1 := dispatch [("type", JSVal.str CALL_STATES.RECEIVED), ("data", awaited)] h
    let h2 := h1.record (Effect.responseCallback awaited)
    match cb.responseCallback awaited with
    | Except.error x => callCatch cb response x h2
    | Except.ok () => (h2, Settlement.resolved response)
  | Settlement.rejected e => callCatch cb response e h

/-- The function `call`, lines 52-65, run to completion: the new instance and
how the promise it returns settles. `callFn` is given by how it settles on
each argument list. -/
def call (cb : Callbacks) (callFn : List JSVal → Settlement) (callArgs : List JSVal)
    (h : HookInstance) : HookInstance × Settlement :=
  match callStart cb callArgs h with
  | (h1, some x) => (h1, Settlement.rejected x)
  | (h1, none) => callResume cb (callFn callArgs) h1

end useAPICallHook

/-! ## Scenarios built from the operations above -/

/-- The three events of the state machine, as the reducer receives them. -/
inductive CallEvent where
  | FETCHING
  | RECEIVED (v : JSVal)
  | ERROR (e : JSVal)
  deriving DecidableEq, Repr

/-- The action carrying an event to `apiCallReducer`: its `type` is the
matching `CALL_STATES` constant, and the payload sits under the property the
reducer reads for that case (`data` at line 29, `error` at line 36). -/
def CallEvent.toAction : CallEvent → JSObject
  | CallEvent.FETCHING => [("type", JSVal.str CALL_STATES.FETCHING)]
  | CallEvent.RECEIVED v => [("type", JSVal.str CALL_STATES.RECEIVED), ("data", v)]
  | CallEvent.ERROR e => [("type", JSVal.str CALL_STATES.ERROR), ("error", e)]

/-- The state reached from `state` by applying the events in order. -/
def applyEvents (state : CallState) (events : List CallEvent) : CallState :=
  events.foldl (fun s ev => apiCallReducer s ev.toAction) state

/-- Event sequences in which no ERROR event arrives while a RECEIVED event is
the latest non-ERROR event: `hasData` tells whether a RECEIVED event has been
seen since the last FETCHING. -/
def noErrorOverData : Bool → List CallEvent → Bool
  | _, [] => true
  | _, CallEvent.FETCHING :: rest => noErrorOverData false rest
  | _, CallEvent.RECEIVED _ :: rest => noErrorOverData true rest
  | hasData, CallEvent.ERROR _ :: rest => !hasData && noErrorOverData hasData rest

/-- Two invocations of `call` on one instance, the second started before the
first has settled. The first is started with `args1` and its `callFn` settles
as `out1`, the second with `args2` and `out2`; `firstSettlesFirst` tells the
order in which the two awaited results arrive. An invocation whose
`fetchingCallback` throws ends there and never resumes. -/
def overlappingCalls (cb : Callbacks) (args1 args2 : List JSVal) (out1 out2 : Settlement)
    (firstSettlesFirst : Bool) (h : HookInstance) : HookInstance :=
  match useAPICallHook.callStart cb args1 h with
  | (h1, some _) => (useAPICallHook.call cb (fun _ => out2) args2 h1).1
  | (h1, none) =>
    match useAPICallHook.callStart cb args2 h1 with
    | (h2, some _) => (useAPICallHook.callResume cb out1 h2).1
    | (h2, none) =>
      if firstSettlesFirst then
        (useAPICallHook.callResume cb out2 (useAPICallHook.callResume cb out1 h2).1).1
      else
        (useAPICallHook.callResume cb out1 (useAPICallHook.callResume cb out2 h2).1).1

/-! ## Entry points, lines 43-48 and 69-85 -/

/-- What one render of the hook hands back at line 66: the record read by the
component, and the `call` closure acting on the instance. -/
structure HookResult where
  view : JSObject
  call : List JSVal → HookInstance → HookInstance × Settlement

/-- The function `useAPICallHook`, lines 43-67, for a render in which
`useReducer` holds `state`. A callback argument is `none` when it is omitted
or `undefined`, in which case the default `() => {}` of lines 45-47 applies. -/
def useAPICallHook (callFn : List JSVal → Settlement)
    (fetchingCallback : Option (Callback (List JSVal)))
    (responseCallback errorCallback : Option (Callback JSVal))
    (state : CallState) : HookResult :=
  let cb : Callbacks :=
    { fetchingCallback := fetchingCallback.getD noop,
      responseCallback := responseCallback.getD noop,
      errorCallback := errorCallback.getD noop }
  { view := useAPICallHook.view state, call := useAPICallHook.call cb callFn }

/-- The default export `useAPICall`, lines 69-71. -/
def useAPICall (callFn : List JSVal → Settlement) (state : CallState) : HookResult :=
  useAPICallHook callFn none none none state

/-- The export `useAPICallWithSideEffects`, lines 73-85. -/
def useAPICallWithSideEffects (callFn : List JSVal → Settlement)
    (fetchingCallbackFn : Option (Callback (List JSVal)))
    (responseCallbackFn errorCallbackFn : Option (Callback JSVal))
    (state : CallState) : HookResult :=
  useAPICallHook callFn fetchingCallbackFn responseCallbackFn errorCallbackFn state

/-! ## The transition table of the specification -/

/-- The state machine as section 4.1 of the specification words it: FETCHING
gives `loading=true; data=null; error=null`, RECEIVED with value `v` gives
`loading=false; data=v; error=null`, and ERROR with error `e` gives
`loading=false; error=e` with `data` left as it is. -/
def specTransition (s : CallState) : CallEvent → CallState
  | CallEvent.FETCHING => { loading := true, data := JSVal.null, error := JSVal.null }
  | CallEvent.RECEIVED v => { loading := false, data := v, error := JSVal.null }
  | CallEvent.ERROR e => { loading := false, data := s.data, error := e }

/-! ## Facts about the reducer used throughout -/

theorem apiCallReducer_fetching_action (s : CallState) :
    apiCallReducer s [("type", JSVal.str CALL_STATES.FETCHING)]
      = { loading := true, data := JSVal.null, error := JSVal.null } := rfl

theorem apiCallReducer_received_action (s : CallState) (v : JSVal) :
    apiCallReducer s [("type", JSVal.str CALL_STATES.RECEIVED), ("data", v)]
      = { loading := false, data := v, error := JSVal.null } := rfl

theorem apiCallReducer_catch_action (s : CallState) (e : JSVal) :
    apiCallReducer s [("type", JSVal.str CALL_STATES.ERROR), ("e", e)]
      = { loading := false, data := s.data, error := JSVal.undefined } := rfl

theorem apiCallReducer_error_action (s : CallState) (e : JSVal) :
    apiCallReducer s [("type", JSVal.str CALL_STATES.ERROR), ("error", e)]
      = { loading := false, data := s.data, error := e } := rfl

/-! ## Facts about `call` used throughout -/

open useAPICallHook

/-- The first half of `call` leaves the FETCHING state, whatever came before
and whether or not `fetchingCallback` throws. -/
theorem callStart_state_eq (cb : Callbacks) (callArgs : List JSVal) (h : HookInstance) :
    (callStart cb callArgs h).1.state
      = { loading := true, data := JSVal.null, error := JSVal.null } := by
  unfold callStart
  cases cb.fetchingCallback callArgs <;> rfl

/-- A started invocation whose `fetchingCallback` returned has invoked `callFn`. -/
theorem callStart_of_ok (cb : Callbacks) (callArgs : List JSVal) (h : HookInstance)
    (hf : cb.fetchingCallback callArgs = Except.ok ()) :
    callStart cb callArgs h
      = ({ state := { loading := true, data := JSVal.null, error := JSVal.null },
           log := h.log ++ [Effect.dispatch [("type", JSVal.str CALL_STATES.FETCHING)],
             Effect.fetchingCallback callArgs, Effect.callFn callArgs] }, none) := by
  simp [callStart, hf, dispatch, HookInstance.record, apiCallReducer_fetching_action]

/-- Resuming with a value when `responseCallback` returns. -/
theorem callResume_resolved_of_ok (cb : Callbacks) (v : JSVal) (h : HookInstance)
    (hr : cb.responseCallback v = Except.ok ()) :
    callResume cb (Settlement.resolved v) h
      = ({ state := { loading := false, data := v, error := JSVal.null },
           log := h.log ++ [Effect.dispatch
               [("type", JSVal.str CALL_STATES.RECEIVED), ("data", v)],
             Effect.responseCallback v] }, Settlement.resolved JSVal.null) := by
  simp [callResume, hr, dispatch, HookInstance.record, apiCallReducer_received_action]

/-- Resuming with a failure when `errorCallback` returns. -/
theorem callResume_rejected_of_ok (cb : Callbacks) (e : JSVal) (h : HookInstance)
    (he : cb.errorCallback e = Except.ok ()) :
    callResume cb (Settlement.rejected e) h
      = ({ state := { loading := false, data := h.state.data, error := JSVal.undefined },
           log := h.log ++ [Effect.dispatch [("type", JSVal.str CALL_STATES.ERROR), ("e", e)],
             Effect.errorCallback e] }, Settlement.resolved JSVal.null) := by
  simp [callResume, callCatch, he, dispatch, HookInstance.record, apiCallReducer_catch_action]

/-- The state `call` leaves does not depend on the state it started from. -/
theorem call_state_indep (cb : Callbacks) (callFn : List JSVal → Settlement)
    (callArgs : List JSVal) (h k : HookInstance) :
    (call cb callFn callArgs h).1.state = (call cb callFn callArgs k).1.state := by
  unfold call callStart
  cases cb.fetchingCallback callArgs with
  | error x => rfl
  | ok u =>
    cases hout : callFn callArgs with
    | resolved v =>
      simp only [callResume, callCatch]
      cases cb.responseCallback v with
      | error y => simp only []; cases cb.errorCallback y <;> rfl
      | ok u2 => rfl
    | rejected e =>
      simp only [callResume, callCatch]
      cases cb.errorCallback e <;> rfl

/-! ## Facts about event sequences -/

/-- A prefix of an admissible event sequence is admissible. -/
theorem noErrorOverData_take (events : List CallEvent) :
    ∀ (hasData : Bool) (n : Nat), noErrorOverData hasData events = true →
      noErrorOverData hasData (events.take n) = true := by
  induction events with
  | nil => intro hasData n _; simp [noErrorOverData]
  | cons ev rest ih =>
    intro hasData n hv
    cases n with
    | zero => simp [noErrorOverData]
    | succ m =>
      cases ev with
      | FETCHING =>
        simp only [List.take_succ_cons, noErrorOverData] at hv ⊢
        exact ih false m hv
      | RECEIVED v =>
        simp only [List.take_succ_cons, noErrorOverData] at hv ⊢
        exact ih true m hv
      | ERROR e =>
        simp only [List.take_succ_cons, noErrorOverData, Bool.and_eq_true] at hv ⊢
        exact ⟨hv.1, ih hasData m hv.2⟩

/-- Along an admissible event sequence `data` and `error` are never both set,
provided this holds at the start and `data` is null there unless a RECEIVED
event is pending. -/
theorem applyEvents_exclusive (events : List CallEvent) :
    ∀ (hasData : Bool) (s : CallState), noErrorOverData hasData events = true →
      (hasData = false → s.data = JSVal.null) →
      (s.data = JSVal.null ∨ s.error = JSVal.null) →
      ((applyEvents s events).data = JSVal.null ∨ (applyEvents s events).error = JSVal.null) := by
  induction events with
  | nil => intro hasData s _ _ hinv; simpa [applyEvents] using hinv
  | cons ev rest ih =>
    intro hasData s hv hd hinv
    cases ev with
    | FETCHING =>
      simp only [noErrorOverData] at hv
      have := ih false (apiCallReducer s CallEvent.FETCHING.toAction) hv
        (fun _ => rfl) (Or.inl rfl)
      simpa [applyEvents] using this
    | RECEIVED v =>
      simp only [noErrorOverData] at hv
      have := ih true (apiCallReducer s (CallEvent.RECEIVED v).toAction) hv
        (fun hc => by cases hc) (Or.inr rfl)
      simpa [applyEvents] using this
    | ERROR e =>
      simp only [noErrorOverData, Bool.and_eq_true, Bool.not_eq_true'] at hv
      have hnull : s.data = JSVal.null := hd hv.1
      have := ih hasData (apiCallReducer s (CallEvent.ERROR e).toAction) hv.2
        (fun _ => hnull) (Or.inl hnull)
      simpa [applyEvents] using this

/-! ## The claims -/

/-- C1: when `callFn` resolves with `v` and the callbacks that run
(`fetchingCallback`, `responseCallback`) do not throw, then from every prior
instance and for every argument list the state after `call` has settled is
exactly `{loading: false, data: v, error: null}`. -/
theorem call_resolved_final_state (cb : Callbacks) (callFn : List JSVal → Settlement)
    (callArgs : List JSVal) (h : HookInstance) (v : JSVal)
    (hres : callFn callArgs = Settlement.resolved v)
    (hf : cb.fetchingCallback callArgs = Except.ok ())
    (hr : cb.responseCallback v = Except.ok ()) :
    (call cb callFn callArgs h).1.state
      = { loading := false, data := v, error := JSVal.null } := by
  simp [call, callStart_of_ok cb callArgs h hf, hres, callResume_resolved_of_ok cb v _ hr]

/-- Scenario A of the specification: `callFn = () => Promise.resolve(42)` on a
fresh instance with the default callbacks. -/
theorem call_resolved_final_state_witness :
    (call defaultCallbacks (fun _ => Settlement.resolved (JSVal.num 42)) []
        HookInstance.mount).1.state
      = { loading := false, data := JSVal.num 42, error := JSVal.null } :=
  call_resolved_final_state defaultCallbacks (fun _ => Settlement.resolved (JSVal.num 42)) []
    HookInstance.mount (JSVal.num 42) rfl rfl rfl

/-- C2: on Scenario B, `callFn = () => Promise.reject("boom")` with the default
callbacks on a fresh instance, the settled state is
`{loading: false, data: null, error: undefined}`: the `error` field does not
hold the value `"boom"` that `callFn` failed with. -/
theorem call_rejected_error_field_undefined :
    (call defaultCallbacks (fun _ => Settlement.rejected (JSVal.str "boom")) []
        HookInstance.mount).1.state
      = { loading := false, data := JSVal.null, error := JSVal.undefined }
    ∧ (call defaultCallbacks (fun _ => Settlement.rejected (JSVal.str "boom")) []
        HookInstance.mount).1.state.error ≠ JSVal.str "boom" := by
  decide

/-- C3: from every prior instance, whatever data or error it holds, the state
right after the synchronous part of `call` (before `callFn` settles) is exactly
`{loading: true, data: null, error: null}`. -/
theorem call_in_flight_state (cb : Callbacks) (callArgs : List JSVal) (h : HookInstance) :
    (callStart cb callArgs h).1.state
      = { loading := true, data := JSVal.null, error := JSVal.null } :=
  callStart_state_eq cb callArgs h

/-- C4: when `callFn` fails with `e` and the callbacks that run
(`fetchingCallback`, `errorCallback`) do not throw, the promise returned by
`call` is fulfilled, not rejected, and `e` is handed to `errorCallback` as the
last effect of the invocation. -/
theorem call_rejected_not_rethrown (cb : Callbacks) (callFn : List JSVal → Settlement)
    (callArgs : List JSVal) (h : HookInstance) (e : JSVal)
    (hrej : callFn callArgs = Settlement.rejected e)
    (hf : cb.fetchingCallback callArgs = Except.ok ())
    (he : cb.errorCallback e = Except.ok ()) :
    (∃ r, (call cb callFn callArgs h).2 = Settlement.resolved r)
    ∧ (∀ x, (call cb callFn callArgs h).2 ≠ Settlement.rejected x)
    ∧ (∃ before, (call cb callFn callArgs h).1.log = before ++ [Effect.errorCallback e]) := by
  have hcall : call cb callFn callArgs h
      = ({ state := { loading := false, data := JSVal.null, error := JSVal.undefined },
           log := (h.log ++ [Effect.dispatch [("type", JSVal.str CALL_STATES.FETCHING)],
               Effect.fetchingCallback callArgs, Effect.callFn callArgs])
             ++ [Effect.dispatch [("type", JSVal.str CALL_STATES.ERROR), ("e", e)],
               Effect.errorCallback e] }, Settlement.resolved JSVal.null) := by
    simp [call, callStart_of_ok cb callArgs h hf, hrej, callResume_rejected_of_ok cb e _ he]
  rw [hcall]
  refine ⟨⟨JSVal.null, rfl⟩, ?_, ?_⟩
  · intro x hx
    cases hx
  · refine ⟨h.log ++ [Effect.dispatch [("type", JSVal.str CALL_STATES.FETCHING)],
      Effect.fetchingCallback callArgs, Effect.callFn callArgs,
      Effect.dispatch [("type", JSVal.str CALL_STATES.ERROR), ("e", e)]], ?_⟩
    simp

/-- Scenario C of the specification: the default callbacks and a `callFn` that
rejects with `"boom"`. -/
theorem call_rejected_not_rethrown_witness :
    (∃ r, (call defaultCallbacks (fun _ => Settlement.rejected (JSVal.str "boom")) []
        HookInstance.mount).2 = Settlement.resolved r)
    ∧ (∀ x, (call defaultCallbacks (fun _ => Settlement.rejected (JSVal.str "boom")) []
        HookInstance.mount).2 ≠ Settlement.rejected x)
    ∧ (∃ before, (call defaultCallbacks (fun _ => Settlement.rejected (JSVal.str "boom")) []
        HookInstance.mount).1.log = before ++ [Effect.errorCallback (JSVal.str "boom")]) :=
  call_rejected_not_rethrown defaultCallbacks (fun _ => Settlement.rejected (JSVal.str "boom"))
    [] HookInstance.mount (JSVal.str "boom") rfl rfl rfl

/-- Whenever the promise returned by `call` is fulfilled, it is fulfilled with
`null`. -/
theorem call_resolved_value (cb : Callbacks) (callFn : List JSVal → Settlement)
    (callArgs : List JSVal) (h : HookInstance) (r : JSVal)
    (hret : (call cb callFn callArgs h).2 = Settlement.resolved r) : r = JSVal.null := by
  unfold call callStart at hret
  cases hfc : cb.fetchingCallback callArgs with
  | error x => simp [hfc] at hret
  | ok u =>
    simp only [hfc] at hret
    cases hout : callFn callArgs with
    | resolved v =>
      simp only [hout, callResume, callCatch] at hret
      cases hrc : cb.responseCallback v with
      | error y =>
        simp only [hrc] at hret
        cases hec : cb.errorCallback y with
        | error z => simp [hec] at hret
        | ok u3 => simp only [hec, Settlement.resolved.injEq] at hret; exact hret.symm
      | ok u2 => simp only [hrc, Settlement.resolved.injEq] at hret; exact hret.symm
    | rejected e =>
      simp only [hout, callResume, callCatch] at hret
      cases hec : cb.errorCallback e with
      | error z => simp [hec] at hret
      | ok u3 => simp only [hec, Settlement.resolved.injEq] at hret; exact hret.symm

/-- C5: with callbacks that do not throw, `call` returns `null` for every
`callFn`, argument list and prior instance, also when `callFn` resolved with a
value `v`; and with any callbacks at all, a value that `call` returns is
`null`. -/
theorem call_returns_null (cb : Callbacks) (callFn : List JSVal → Settlement)
    (callArgs : List JSVal) (h : HookInstance)
    (hf : cb.fetchingCallback callArgs = Except.ok ())
    (hr : ∀ v, cb.responseCallback v = Except.ok ())
    (he : ∀ e, cb.errorCallback e = Except.ok ()) :
    (call cb callFn callArgs h).2 = Settlement.resolved JSVal.null
    ∧ ∀ (other : Callbacks) (r : JSVal),
        (call other callFn callArgs h).2 = Settlement.resolved r → r = JSVal.null := by
  refine ⟨?_, fun other r hret => call_resolved_value other callFn callArgs h r hret⟩
  cases hout : callFn callArgs with
  | resolved v =>
    simp [call, callStart_of_ok cb callArgs h hf, hout, callResume_resolved_of_ok cb v _ (hr v)]
  | rejected e =>
    simp [call, callStart_of_ok cb callArgs h hf, hout, callResume_rejected_of_ok cb e _ (he e)]

/-- A `callFn` resolving with 42 under the default callbacks: `call` returns
`null`, not 42. -/
theorem call_returns_null_witness :
    (call defaultCallbacks (fun _ => Settlement.resolved (JSVal.num 42)) [JSVal.num 7]
        HookInstance.mount).2 = Settlement.resolved JSVal.null
    ∧ ∀ (other : Callbacks) (r : JSVal),
        (call other (fun _ => Settlement.resolved (JSVal.num 42)) [JSVal.num 7]
          HookInstance.mount).2 = Settlement.resolved r → r = JSVal.null :=
  call_returns_null defaultCallbacks (fun _ => Settlement.resolved (JSVal.num 42))
    [JSVal.num 7] HookInstance.mount rfl (fun _ => rfl) (fun _ => rfl)

/-- C6: for the in-flight state `{loading: true, data: null, error: null}` the
record returned by the hook is `{isLoading: undefined, data: null, error: null,
call}`: it has no `loading` property, and its `isLoading` property is
`undefined` instead of `true`. -/
theorem view_in_flight_loading_undefined :
    view { loading := true, data := JSVal.null, error := JSVal.null }
      = [("isLoading", JSVal.undefined), ("data", JSVal.null), ("error", JSVal.null),
          ("call", JSVal.closure "call")]
    ∧ (view { loading := true, data := JSVal.null, error := JSVal.null }).get "loading"
      = JSVal.undefined
    ∧ (view { loading := true, data := JSVal.null, error := JSVal.null }).get "isLoading"
      ≠ JSVal.bool true := by
  decide

/-- C7, as stated, fails: RECEIVED(1) followed by ERROR("boom") from the
initial state leaves `data = 1` and `error = "boom"`, both non-null. -/
theorem data_error_both_set_counterexample :
    (applyEvents DEFAULT_STATE
        [CallEvent.RECEIVED (JSVal.num 1), CallEvent.ERROR (JSVal.str "boom")]).data
      ≠ JSVal.null
    ∧ (applyEvents DEFAULT_STATE
        [CallEvent.RECEIVED (JSVal.num 1), CallEvent.ERROR (JSVal.str "boom")]).error
      ≠ JSVal.null := by
  decide

/-- C7, amended: in every state reached from the initial state along an event
sequence in which no ERROR event arrives after a RECEIVED event without a
FETCHING event in between, `data` and `error` are never both non-null. The
states reached are those after each prefix of the sequence. -/
theorem data_error_never_both_set (events : List CallEvent)
    (hvalid : noErrorOverData false events = true) (n : Nat) :
    ¬ ((applyEvents DEFAULT_STATE (events.take n)).data ≠ JSVal.null
      ∧ (applyEvents DEFAULT_STATE (events.take n)).error ≠ JSVal.null) := by
  have hpre := noErrorOverData_take events false n hvalid
  have := applyEvents_exclusive (events.take n) false DEFAULT_STATE hpre
    (fun _ => rfl) (Or.inl rfl)
  rintro ⟨hd, he⟩
  rcases this with hnull | hnull
  · exact hd hnull
  · exact he hnull

/-- Two sequential lifecycles, a success and then a failure, observed after
all four events. -/
theorem data_error_never_both_set_witness :
    ¬ ((applyEvents DEFAULT_STATE
          ([CallEvent.FETCHING, CallEvent.RECEIVED (JSVal.num 1), CallEvent.FETCHING,
            CallEvent.ERROR (JSVal.str "boom")].take 4)).data ≠ JSVal.null
      ∧ (applyEvents DEFAULT_STATE
          ([CallEvent.FETCHING, CallEvent.RECEIVED (JSVal.num 1), CallEvent.FETCHING,
            CallEvent.ERROR (JSVal.str "boom")].take 4)).error ≠ JSVal.null) :=
  data_error_never_both_set
    [CallEvent.FETCHING, CallEvent.RECEIVED (JSVal.num 1), CallEvent.FETCHING,
      CallEvent.ERROR (JSVal.str "boom")] (by decide) 4

/-- C8: with callbacks that do not throw, the effects one `call` adds to the
log are exactly, in this order: FETCHING dispatched, `fetchingCallback` on the
argument list, `callFn` on the argument list, and then either RECEIVED carrying
`v` dispatched and `responseCallback(v)` (when `callFn` resolved with `v`) or
the ERROR action dispatched and `errorCallback(e)` (when it failed with `e`).
Each effect occurs once and the callback of the other branch does not occur. -/
theorem call_effects_in_order (cb : Callbacks) (callFn : List JSVal → Settlement)
    (callArgs : List JSVal) (h : HookInstance)
    (hf : cb.fetchingCallback callArgs = Except.ok ())
    (hr : ∀ v, cb.responseCallback v = Except.ok ())
    (he : ∀ e, cb.errorCallback e = Except.ok ()) :
    (call cb callFn callArgs h).1.log
      = h.log ++ [Effect.dispatch [("type", JSVal.str CALL_STATES.FETCHING)],
          Effect.fetchingCallback callArgs, Effect.callFn callArgs]
        ++ (match callFn callArgs with
            | Settlement.resolved v =>
              [Effect.dispatch [("type", JSVal.str CALL_STATES.RECEIVED), ("data", v)],
                Effect.responseCallback v]
            | Settlement.rejected e =>
              [Effect.dispatch [("type", JSVal.str CALL_STATES.ERROR), ("e", e)],
                Effect.errorCallback e]) := by
  cases hout : callFn callArgs with
  | resolved v =>
    simp [call, callStart_of_ok cb callArgs h hf, hout, callResume_resolved_of_ok cb v _ (hr v)]
  | rejected e =>
    simp [call, callStart_of_ok cb callArgs h hf, hout, callResume_rejected_of_ok cb e _ (he e)]

/-- Scenario D of the specification on a failing `callFn` called with the
arguments `(1, "a")`. -/
theorem call_effects_in_order_witness :
    (call defaultCallbacks (fun _ => Settlement.rejected (JSVal.str "boom"))
        [JSVal.num 1, JSVal.str "a"] HookInstance.mount).1.log
      = HookInstance.mount.log
        ++ [Effect.dispatch [("type", JSVal.str CALL_STATES.FETCHING)],
          Effect.fetchingCallback [JSVal.num 1, JSVal.str "a"],
          Effect.callFn [JSVal.num 1, JSVal.str "a"]]
        ++ [Effect.dispatch [("type", JSVal.str CALL_STATES.ERROR), ("e", JSVal.str "boom")],
          Effect.errorCallback (JSVal.str "boom")] :=
  call_effects_in_order defaultCallbacks (fun _ => Settlement.rejected (JSVal.str "boom"))
    [JSVal.num 1, JSVal.str "a"] HookInstance.mount rfl (fun _ => rfl) (fun _ => rfl)

/-- C9, as stated, fails: two overlapping invocations on a fresh instance, the
first resolving with 1 and settling first, the second failing with "boom" and
settling last, end in a state whose `data` is 1, while a single invocation
failing with "boom" ends with `data = null`. -/
theorem overlapping_not_last_write_wins :
    (overlappingCalls defaultCallbacks [] [] (Settlement.resolved (JSVal.num 1))
        (Settlement.rejected (JSVal.str "boom")) true HookInstance.mount).state
      ≠ (call defaultCallbacks (fun _ => Settlement.rejected (JSVal.str "boom")) []
          HookInstance.mount).1.state
    ∧ (overlappingCalls defaultCallbacks [] [] (Settlement.resolved (JSVal.num 1))
        (Settlement.rejected (JSVal.str "boom")) true HookInstance.mount).state.data
      = JSVal.num 1
    ∧ (call defaultCallbacks (fun _ => Settlement.rejected (JSVal.str "boom")) []
          HookInstance.mount).1.state.data = JSVal.null := by
  decide

/-- C9, amended: for two overlapping invocations with callbacks that do not
throw, in either order of settlement and for every combination of outcomes,
`loading` and `error` of the final state are those a single invocation with
the last-settling outcome produces; `data` is the last outcome's value when it
is a success, and otherwise what the first-settling invocation left (its value
if it succeeded, `null` if it failed). The whole state equals that of the
single invocation whenever the last outcome is a success or the first-settling
one is a failure. -/
theorem overlapping_last_outcome (cb : Callbacks) (args1 args2 : List JSVal)
    (out1 out2 : Settlement) (firstSettlesFirst : Bool) (h : HookInstance)
    (hf1 : cb.fetchingCallback args1 = Except.ok ())
    (hf2 : cb.fetchingCallback args2 = Except.ok ())
    (hr : ∀ v, cb.responseCallback v = Except.ok ())
    (he : ∀ e, cb.errorCallback e = Except.ok ()) :
    (overlappingCalls cb args1 args2 out1 out2 firstSettlesFirst h).state.loading
      = (call cb (fun _ => if firstSettlesFirst then out2 else out1)
          (if firstSettlesFirst then args2 else args1) h).1.state.loading
    ∧ (overlappingCalls cb args1 args2 out1 out2 firstSettlesFirst h).state.error
      = (call cb (fun _ => if firstSettlesFirst then out2 else out1)
          (if firstSettlesFirst then args2 else args1) h).1.state.error
    ∧ (overlappingCalls cb args1 args2 out1 out2 firstSettlesFirst h).state.data
      = (match (if firstSettlesFirst then out2 else out1) with
         | Settlement.resolved v => v
         | Settlement.rejected _ =>
           match (if firstSettlesFirst then out1 else out2) with
           | Settlement.resolved w => w
           | Settlement.rejected _ => JSVal.null)
    ∧ (((∃ v, (if firstSettlesFirst then out2 else out1) = Settlement.resolved v)
        ∨ (∃ e, (if firstSettlesFirst then out1 else out2) = Settlement.rejected e)) →
      (overlappingCalls cb args1 args2 out1 out2 firstSettlesFirst h).state
        = (call cb (fun _ => if firstSettlesFirst then out2 else out1)
            (if firstSettlesFirst then args2 else args1) h).1.state) := by
  cases firstSettlesFirst <;> cases out1 <;> cases out2 <;>
    simp [overlappingCalls, call, callStart_of_ok, hf1, hf2, callResume_resolved_of_ok,
      callResume_rejected_of_ok, hr, he]

/-- Two overlapping invocations under the default callbacks, the first failing
with "boom" and settling first, the second resolving with 42: the final state
is that of a single invocation resolving with 42. -/
theorem overlapping_last_outcome_witness :
    (overlappingCalls defaultCallbacks [JSVal.num 1] [JSVal.num 2]
        (Settlement.rejected (JSVal.str "boom")) (Settlement.resolved (JSVal.num 42)) true
        HookInstance.mount).state
      = (call defaultCallbacks (fun _ => Settlement.resolved (JSVal.num 42)) [JSVal.num 2]
          HookInstance.mount).1.state :=
  (overlapping_last_outcome defaultCallbacks [JSVal.num 1] [JSVal.num 2]
    (Settlement.rejected (JSVal.str "boom")) (Settlement.resolved (JSVal.num 42)) true
    HookInstance.mount rfl rfl (fun _ => rfl) (fun _ => rfl)).2.2.2
    (Or.inl ⟨JSVal.num 42, rfl⟩)

/-- C10: when `callFn` resolves with the same value `v` on both invocations
(`first` and `second` are how it settles the first and the second time), two
consecutive calls with the same argument list, the second started after the
first has settled, leave the same state as one call, from every prior
instance and with any callbacks. -/
theorem call_twice_same_state (cb : Callbacks) (first second : List JSVal → Settlement)
    (callArgs : List JSVal) (h : HookInstance) (v : JSVal)
    (h1 : first callArgs = Settlement.resolved v)
    (h2 : second callArgs = Settlement.resolved v) :
    (call cb second callArgs (call cb first callArgs h).1).1.state
      = (call cb first callArgs h).1.state := by
  have hsame : (call cb second callArgs (call cb first callArgs h).1).1.state
      = (call cb first callArgs (call cb first callArgs h).1).1.state := by
    simp only [call, h1, h2]
  rw [hsame]
  exact call_state_indep cb first callArgs _ h

/-- Two consecutive calls of a `callFn` resolving with 42, starting from an
instance that holds an earlier failure. -/
theorem call_twice_same_state_witness :
    (call defaultCallbacks (fun _ => Settlement.resolved (JSVal.num 42)) [JSVal.str "id"]
        (call defaultCallbacks (fun _ => Settlement.resolved (JSVal.num 42)) [JSVal.str "id"]
          { state := { loading := false, data := JSVal.null, error := JSVal.undefined },
            log := [] }).1).1.state
      = (call defaultCallbacks (fun _ => Settlement.resolved (JSVal.num 42)) [JSVal.str "id"]
          { state := { loading := false, data := JSVal.null, error := JSVal.undefined },
            log := [] }).1.state :=
  call_twice_same_state defaultCallbacks (fun _ => Settlement.resolved (JSVal.num 42))
    (fun _ => Settlement.resolved (JSVal.num 42)) [JSVal.str "id"]
    { state := { loading := false, data := JSVal.null, error := JSVal.undefined }, log := [] }
    (JSVal.num 42) rfl rfl

/-- C11: when each of the three callback arguments is omitted (`undefined`) or
is a function that returns without throwing on every input, as a no-op does,
`useAPICallWithSideEffects(callFn, f, r, e)` and `useAPICall(callFn)` return
the same record for every state, and their `call` closures agree on every
argument list and every instance: the same new state, the same effects and the
same returned promise. -/
theorem entry_points_agree (callFn : List JSVal → Settlement)
    (f : Option (Callback (List JSVal))) (r e : Option (Callback JSVal))
    (hf : ∀ g, f = some g → ∀ callArgs, g callArgs = Except.ok ())
    (hr : ∀ g, r = some g → ∀ v, g v = Except.ok ())
    (he : ∀ g, e = some g → ∀ x, g x = Except.ok ()) :
    (∀ state, (useAPICallWithSideEffects callFn f r e state).view
        = (useAPICall callFn state).view)
    ∧ (∀ state callArgs h, (useAPICallWithSideEffects callFn f r e state).call callArgs h
        = (useAPICall callFn state).call callArgs h) := by
  have hf2 : f.getD noop = noop := by
    cases f with
    | none => rfl
    | some g => funext a; exact hf g rfl a
  have hr2 : r.getD noop = noop := by
    cases r with
    | none => rfl
    | some g => funext a; exact hr g rfl a
  have he2 : e.getD noop = noop := by
    cases e with
    | none => rfl
    | some g => funext a; exact he g rfl a
  refine ⟨fun _ => rfl, fun state callArgs h => ?_⟩
  simp only [useAPICallWithSideEffects, useAPICall, useAPICallHook, hf2, hr2, he2,
    Option.getD_none]

/-- The explicit-callbacks entry point called with the first callback omitted
and two no-op functions, against the zero-callback entry point, on a `callFn`
that rejects. -/
theorem entry_points_agree_witness :
    (∀ state, (useAPICallWithSideEffects (fun _ => Settlement.rejected (JSVal.str "boom"))
        none (some noop) (some (fun _ => Except.ok ())) state).view
        = (useAPICall (fun _ => Settlement.rejected (JSVal.str "boom")) state).view)
    ∧ (∀ state callArgs h,
        (useAPICallWithSideEffects (fun _ => Settlement.rejected (JSVal.str "boom"))
          none (some noop) (some (fun _ => Except.ok ())) state).call callArgs h
        = (useAPICall (fun _ => Settlement.rejected (JSVal.str "boom")) state).call
            callArgs h) :=
  entry_points_agree (fun _ => Settlement.rejected (JSVal.str "boom"))
    none (some noop) (some (fun _ => Except.ok ()))
    (fun _ hg => by cases hg)
    (fun _ hg _ => by cases hg; rfl)
    (fun _ hg _ => by cases hg; rfl)

/-- C12: `apiCallReducer` agrees with the transition table of the
specification on every state and every action: an action of type FETCHING
acts as the FETCHING row, an action of type RECEIVED as the RECEIVED row on
the value under its `data` property, and an action of type ERROR as the ERROR
row on the value under its `error` property, `data` being left as it was. -/
theorem apiCallReducer_refines_table (s : CallState) (action : JSObject) :
    (action.get "type" = JSVal.str CALL_STATES.FETCHING →
      apiCallReducer s action = specTransition s CallEvent.FETCHING)
    ∧ (action.get "type" = JSVal.str CALL_STATES.RECEIVED →
      apiCallReducer s action = specTransition s (CallEvent.RECEIVED (action.get "data")))
    ∧ (action.get "type" = JSVal.str CALL_STATES.ERROR →
      apiCallReducer s action = specTransition s (CallEvent.ERROR (action.get "error"))) := by
  refine ⟨fun ht => ?_, fun ht => ?_, fun ht => ?_⟩
  · simp [apiCallReducer, ht, specTransition]
  · have h1 : JSVal.str CALL_STATES.RECEIVED ≠ JSVal.str CALL_STATES.FETCHING := by decide
    simp [apiCallReducer, ht, specTransition, h1]
  · have h1 : JSVal.str CALL_STATES.ERROR ≠ JSVal.str CALL_STATES.FETCHING := by decide
    have h2 : JSVal.str CALL_STATES.ERROR ≠ JSVal.str CALL_STATES.RECEIVED := by decide
    simp [apiCallReducer, ht, specTransition, h1, h2]

/-- An ERROR action carrying "boom", with a stray property besides, applied to
a state holding data 7: `data` stays 7 and `error` becomes "boom". -/
theorem apiCallReducer_refines_table_witness :
    apiCallReducer { loading := true, data := JSVal.num 7, error := JSVal.null }
        [("type", JSVal.str "ERROR"), ("error", JSVal.str "boom"), ("e", JSVal.num 1)]
      = { loading := false, data := JSVal.num 7, error := JSVal.str "boom" } :=
  (apiCallReducer_refines_table
    { loading := true, data := JSVal.num 7, error := JSVal.null }
    [("type", JSVal.str "ERROR"), ("error", JSVal.str "boom"), ("e", JSVal.num 1)]).2.2 rfl

/-- C13: an action whose `type` is none of FETCHING, RECEIVED and ERROR, a
missing `type` included, leaves every state unchanged, whatever else the
action carries. -/
theorem apiCallReducer_unrecognized (s : CallState) (action : JSObject)
    (h1 : action.get "type" ≠ JSVal.str CALL_STATES.FETCHING)
    (h2 : action.get "type" ≠ JSVal.str CALL_STATES.RECEIVED)
    (h3 : action.get "type" ≠ JSVal.str CALL_STATES.ERROR) :
    apiCallReducer s action = s := by
  simp [apiCallReducer, h1, h2, h3]

/-- An action with no `type` that carries both `data` and `error`. -/
theorem apiCallReducer_unrecognized_witness :
    apiCallReducer { loading := true, data := JSVal.num 7, error := JSVal.null }
        [("data", JSVal.num 1), ("error", JSVal.str "boom")]
      = { loading := true, data := JSVal.num 7, error := JSVal.null } :=
  apiCallReducer_unrecognized { loading := true, data := JSVal.num 7, error := JSVal.null }
    [("data", JSVal.num 1), ("error", JSVal.str "boom")]
    (by decide) (by decide) (by decide)

/-- C14: when `callFn` resolves with `v` and `responseCallback(v)` throws `x`,
the effects one `call` adds are, in order: FETCHING dispatched,
`fetchingCallback`, `callFn`, RECEIVED carrying `v` dispatched,
`responseCallback(v)`, the ERROR action dispatched and `errorCallback(x)`; so
both callbacks run in the one call. The final state has `loading = false` and
keeps `data = v`, and `call` returns normally as soon as `errorCallback(x)`
does. -/
theorem call_response_callback_throws (cb : Callbacks) (callFn : List JSVal → Settlement)
    (callArgs : List JSVal) (h : HookInstance) (v x : JSVal)
    (hres : callFn callArgs = Settlement.resolved v)
    (hf : cb.fetchingCallback callArgs = Except.ok ())
    (hr : cb.responseCallback v = Except.error x) :
    (call cb callFn callArgs h).1.log
      = h.log ++ [Effect.dispatch [("type", JSVal.str CALL_STATES.FETCHING)],
          Effect.fetchingCallback callArgs, Effect.callFn callArgs,
          Effect.dispatch [("type", JSVal.str CALL_STATES.RECEIVED), ("data", v)],
          Effect.responseCallback v,
          Effect.dispatch [("type", JSVal.str CALL_STATES.ERROR), ("e", x)],
          Effect.errorCallback x]
    ∧ (call cb callFn callArgs h).1.state.loading = false
    ∧ (call cb callFn callArgs h).1.state.data = v
    ∧ (cb.errorCallback x = Except.ok () →
        (call cb callFn callArgs h).2 = Settlement.resolved JSVal.null) := by
  simp only [call, callStart_of_ok cb callArgs h hf, hres, callResume, hr, callCatch]
  cases hec : cb.errorCallback x with
  | error y =>
    simp [dispatch, HookInstance.record, apiCallReducer_received_action,
      apiCallReducer_catch_action]
  | ok u =>
    simp [dispatch, HookInstance.record, apiCallReducer_received_action,
      apiCallReducer_catch_action]

/-- A `callFn` resolving with 42 and a `responseCallback` that throws "bad",
the other callbacks being no-ops. -/
theorem call_response_callback_throws_witness :
    (call { fetchingCallback := noop,
            responseCallback := fun _ => Except.error (JSVal.str "bad"),
            errorCallback := noop }
        (fun _ => Settlement.resolved (JSVal.num 42)) [] HookInstance.mount).1.state.data
      = JSVal.num 42
    ∧ (call { fetchingCallback := noop,
              responseCallback := fun _ => Except.error (JSVal.str "bad"),
              errorCallback := noop }
        (fun _ => Settlement.resolved (JSVal.num 42)) [] HookInstance.mount).2
      = Settlement.resolved JSVal.null :=
  ⟨(call_response_callback_throws
      { fetchingCallback := noop,
        responseCallback := fun _ => Except.error (JSVal.str "bad"),
        errorCallback := noop }
      (fun _ => Settlement.resolved (JSVal.num 42)) [] HookInstance.mount
      (JSVal.num 42) (JSVal.str "bad") rfl rfl rfl).2.2.1,
   (call_response_callback_throws
      { fetchingCallback := noop,
        responseCallback := fun _ => Except.error (JSVal.str "bad"),
        errorCallback := noop }
      (fun _ => Settlement.resolved (JSVal.num 42)) [] HookInstance.mount
      (JSVal.num 42) (JSVal.str "bad") rfl rfl rfl).2.2.2 rfl⟩

/-- C15: when `fetchingCallback(...callArgs)` throws `x`, the promise returned
by `call` is rejected with `x`; the only effects added are the FETCHING
dispatch and the `fetchingCallback` invocation, so `callFn`,
`responseCallback` and `errorCallback` are not invoked; and the state is left
at `{loading: true, data: null, error: null}`. -/
theorem call_fetching_callback_throws (cb : Callbacks) (callFn : List JSVal → Settlement)
    (callArgs : List JSVal) (h : HookInstance) (x : JSVal)
    (hf : cb.fetchingCallback callArgs = Except.error x) :
    call cb callFn callArgs h
      = ({ state := { loading := true, data := JSVal.null, error := JSVal.null },
           log := h.log ++ [Effect.dispatch [("type", JSVal.str CALL_STATES.FETCHING)],
             Effect.fetchingCallback callArgs] },
         Settlement.rejected x) := by
  simp [call, callStart, hf, dispatch, HookInstance.record, apiCallReducer_fetching_action]

/-- A `fetchingCallback` that throws "nope", on an instance holding data from
an earlier call. -/
theorem call_fetching_callback_throws_witness :
    call { fetchingCallback := fun _ => Except.error (JSVal.str "nope"),
           responseCallback := noop, errorCallback := noop }
        (fun _ => Settlement.resolved (JSVal.num 42)) [JSVal.num 1]
        { state := { loading := false, data := JSVal.num 5, error := JSVal.null }, log := [] }
      = ({ state := { loading := true, data := JSVal.null, error := JSVal.null },
           log := [] ++ [Effect.dispatch [("type", JSVal.str CALL_STATES.FETCHING)],
             Effect.fetchingCallback [JSVal.num 1]] },
         Settlement.rejected (JSVal.str "nope")) :=
  call_fetching_callback_throws
    { fetchingCallback := fun _ => Except.error (JSVal.str "nope"),
      responseCallback := noop, errorCallback := noop }
    (fun _ => Settlement.resolved (JSVal.num 42)) [JSVal.num 1]
    { state := { loading := false, data := JSVal.num 5, error := JSVal.null }, log := [] }
    (JSVal.str "nope") rfl

end UseAPICall
